import Mathlib

/-!
# Access control with counting semaphores (Trabalho_SE_06.c)

A shallow embedding of the occupancy logic of `src/Trabalho_SE_06.c`:
the shared counter `g_num_usuarios` (a `uint8_t`), the counting semaphore
`xSemaphoreContagem`, the binary semaphore `xSemaphoreReset`, the buzzer
output, and the bodies of the tasks `vTaskEntrada`, `vTaskSaida`,
`vTaskReset`, `vLEDRGBTask` and `vDisplayOLEDTask`.

Conventions.
* `uint8_t` values are natural numbers; `++` and `--` on them are taken
  modulo `256`.
* Comparisons such as `g_num_usuarios < USUARIOS_FULLS - 1` are evaluated
  in `Int`, as C promotes both `uint8_t` operands to `int`.
* `vTaskDelay` only lets time pass and is not represented.
* PWM writes to the buzzer are recorded, in order, in the list `buzzer`.
* The kernel objects of FreeRTOS (counting and binary semaphore) are not part
  of the sources; they are described by their count and maximum count.
* Every read of the volatile `g_num_usuarios` in `vLEDRGBTask` is a value of
  its own (`Reads`), since the entry, exit and reset tasks have higher
  priority and may run between two reads.
* Complete button presses and resets are functions `Sys → Sys`; for the
  interleaving of an exit press with a reset the same code is also given
  statement by statement (`exitStmt`, `resetStmt`), and `exitStmt_all` and
  `resetStmt_all` relate the two presentations.
-/

namespace TrabalhoSE06

/-! ## Semaphore primitives -/

/-- Modelled from the spec: the counting semaphore behind `xSemaphoreContagem`
is a kernel object whose code is not among the sources. It is the bounded
resource of the data model, "AdmissionTokens (bounded resource, range
[0, Capacity])": a current count and the maximum count fixed at creation. -/
structure CountingSemaphore where
  count : Nat
  maxCount : Nat
  deriving DecidableEq

/-- Modelled from the spec: `xSemaphoreCreateCounting(uxMaxCount, uxInitialCount)`,
used in `main` with both arguments equal to `USUARIOS_FULLS`
("AdmissionTokens = Capacity" at startup). -/
def xSemaphoreCreateCounting (uxMaxCount uxInitialCount : Nat) : CountingSemaphore :=
  { count := uxInitialCount, maxCount := uxMaxCount }

/-- Modelled from the spec: `xSemaphoreTake(sem, 0)`, the non-blocking
`tryAcquire`: "returns true and consumes a token iff AdmissionTokens > 0 at the
instant of the attempt, false otherwise". The first component is `pdTRUE`. -/
def xSemaphoreTake (sem : CountingSemaphore) : Bool × CountingSemaphore :=
  if 0 < sem.count then (true, { sem with count := sem.count - 1 })
  else (false, sem)

/-- Modelled from the spec: `xSemaphoreGive(sem)`, the `release` of one token
into a resource of "range [0, Capacity]": the count grows by one unless it
already equals the maximum, in which case the give is rejected (first
component `false`) and the count is unchanged. -/
def xSemaphoreGive (sem : CountingSemaphore) : Bool × CountingSemaphore :=
  if sem.count < sem.maxCount then (true, { sem with count := sem.count + 1 })
  else (false, sem)

/-! ## Shared state -/

/-- The shared state touched by the entry, exit and reset tasks:
`g_num_usuarios`, `xSemaphoreContagem`, and the levels written to the buzzer
by `configurarBuzzer`, oldest first. -/
structure Sys where
  g_num_usuarios : Nat
  xSemaphoreContagem : CountingSemaphore
  buzzer : List Nat
  deriving DecidableEq

/-- The function `configurarBuzzer(volume)`: one PWM level write on the buzzer pin. -/
def configurarBuzzer (volume : Nat) (s : Sys) : Sys :=
  { s with buzzer := s.buzzer ++ [volume] }

/-- The state built by `main` before the scheduler starts, for
`USUARIOS_FULLS = cap`: `g_num_usuarios = 0`, the counting semaphore created
with maximum and initial count `cap`, and `configurarBuzzer(0)` from
`initSettings`. -/
def mainInit (cap : Nat) : Sys :=
  configurarBuzzer 0
    { g_num_usuarios := 0
      xSemaphoreContagem := xSemaphoreCreateCounting cap cap
      buzzer := [] }

/-! ## Task bodies -/

/-- The body of `vTaskEntrada` for one press of button A (lines 208-219). -/
def vTaskEntrada (s : Sys) : Sys :=
  let r := xSemaphoreTake s.xSemaphoreContagem
  if r.1 = true then
    { s with xSemaphoreContagem := r.2, g_num_usuarios := (s.g_num_usuarios + 1) % 256 }
  else
    configurarBuzzer 0 (configurarBuzzer 50 s)

/-- The body of `vTaskSaida` for one press of button B (lines 243-251). -/
def vTaskSaida (s : Sys) : Sys :=
  if 0 < s.g_num_usuarios then
    let r := xSemaphoreGive s.xSemaphoreContagem
    { s with xSemaphoreContagem := r.2, g_num_usuarios := (s.g_num_usuarios + 255) % 256 }
  else s

/-- The loop `for (i = 0; i < usuarios_anteriores; i++) xSemaphoreGive(...)` of
`vTaskReset`, with `n` iterations left. Returns the semaphore and the result of
every give, in order. -/
def resetGives : Nat → CountingSemaphore → CountingSemaphore × List Bool
  | 0, sem => (sem, [])
  | n + 1, sem =>
    let r := xSemaphoreGive sem
    let rest := resetGives n r.2
    (rest.1, r.1 :: rest.2)

/-- The double beep of `vTaskReset` (lines 270-276). -/
def resetBeep (s : Sys) : Sys :=
  configurarBuzzer 0 (configurarBuzzer 50 (configurarBuzzer 0 (configurarBuzzer 50 s)))

/-- The restoring part of `vTaskReset` (lines 279-285): read the prior count,
write zero, give the semaphore prior-count times. -/
def resetRestore (s : Sys) : Sys :=
  let usuarios_anteriores := s.g_num_usuarios
  { s with g_num_usuarios := 0
           xSemaphoreContagem := (resetGives usuarios_anteriores s.xSemaphoreContagem).1 }

/-- The body of `vTaskReset` after a successful take of `xSemaphoreReset`
(lines 270-285). -/
def vTaskReset (s : Sys) : Sys :=
  resetRestore (resetBeep s)

/-- One complete button press or reset, run without interleaving. -/
inductive Step where
  | entrada
  | saida
  | reset
  deriving DecidableEq

/-- Run one step. -/
def Step.run : Step → Sys → Sys
  | .entrada => vTaskEntrada
  | .saida => vTaskSaida
  | .reset => vTaskReset

/-- Run a finite sequence of steps, first element first. -/
def runSteps : List Step → Sys → Sys
  | [], s => s
  | st :: rest, s => runSteps rest (st.run s)

/-- The capacity invariant: `0 <= OccupancyCount <= Capacity` and
`AdmissionTokens == Capacity - OccupancyCount` (stated over the integers). -/
def Inv (cap : Nat) (s : Sys) : Prop :=
  s.g_num_usuarios ≤ cap ∧
    (s.xSemaphoreContagem.count : Int) = (cap : Int) - (s.g_num_usuarios : Int)

instance (cap : Nat) (s : Sys) : Decidable (Inv cap s) := by
  unfold Inv; infer_instance

/-- The invariant together with the fact that the semaphore maximum is the capacity. -/
def InvMax (cap : Nat) (s : Sys) : Prop :=
  Inv cap s ∧ s.xSemaphoreContagem.maxCount = cap

/-! ## Status projection -/

/-- The colour selection of `vLEDRGBTask` (lines 299-311): the arguments of the
`configurarLEDRGB(r, g, b)` call that is executed for a count `n`. -/
def ledCascade (USUARIOS_FULLS n : Nat) : Nat × Nat × Nat :=
  if n = 0 then (0, 0, 255)
  else if (n : Int) < (USUARIOS_FULLS : Int) - 1 then (0, 255, 0)
  else if (n : Int) = (USUARIOS_FULLS : Int) - 1 then (255, 255, 0)
  else (255, 0, 0)

/-- The status line selection of `vDisplayOLEDTask` (lines 347-355): the string
drawn at row 40 for a count `n`. -/
def displayStatus (USUARIOS_FULLS n : Nat) : String :=
  if n = 0 then "Status: Vazio"
  else if (n : Int) < (USUARIOS_FULLS : Int) - 1 then "Status: Livre"
  else if (n : Int) = (USUARIOS_FULLS : Int) - 1 then "Status: Ultima"
  else "Status: Lotado"

/-- The four status tiers named by the specification. -/
inductive Tier where
  | Empty
  | Available
  | LastSlot
  | Full
  deriving DecidableEq

/-- The LED colour of a tier, as labelled by the comments of `vLEDRGBTask`:
blue for no user, green for room available, yellow for one slot left, red
for maximum capacity. -/
def tierColour : Tier → Nat × Nat × Nat
  | .Empty => (0, 0, 255)
  | .Available => (0, 255, 0)
  | .LastSlot => (255, 255, 0)
  | .Full => (255, 0, 0)

/-- The display label of a tier. -/
def tierLabel : Tier → String
  | .Empty => "Status: Vazio"
  | .Available => "Status: Livre"
  | .LastSlot => "Status: Ultima"
  | .Full => "Status: Lotado"

/-- The local state of `vLEDRGBTask` together with the colour currently shown
by the LED. -/
structure LedState where
  num_usuarios_anterior : Nat
  led : Nat × Nat × Nat
  deriving DecidableEq

/-- The LED state when the scheduler starts: `num_usuarios_anterior = 0` and
the blue colour written by `initSettings` (line 178). -/
def ledInit : LedState :=
  { num_usuarios_anterior := 0, led := (0, 0, 255) }

/-- The values returned by the reads of the volatile `g_num_usuarios` in one
polling iteration of `vLEDRGBTask`, named by source line: the change test
(297), the three tests of the cascade (299, 302, 305) and the read stored in
`num_usuarios_anterior` (314). Tasks of higher priority may change the counter
between two reads. -/
structure Reads where
  r297 : Nat
  r299 : Nat
  r302 : Nat
  r305 : Nat
  r314 : Nat
  deriving DecidableEq

/-- An iteration in which every read returns the same value. -/
def Reads.uniform (n : Nat) : Reads :=
  { r297 := n, r299 := n, r302 := n, r305 := n, r314 := n }

/-- The colour selection of `vLEDRGBTask` (lines 299-311) with one value per
read of `g_num_usuarios`. -/
def ledRender (USUARIOS_FULLS : Nat) (rd : Reads) : Nat × Nat × Nat :=
  if rd.r299 = 0 then (0, 0, 255)
  else if (rd.r302 : Int) < (USUARIOS_FULLS : Int) - 1 then (0, 255, 0)
  else if (rd.r305 : Int) = (USUARIOS_FULLS : Int) - 1 then (255, 255, 0)
  else (255, 0, 0)

/-- One polling iteration of `vLEDRGBTask` (lines 297-315): when the read of
line 297 differs from `num_usuarios_anterior`, the LED is rendered from the
reads of the cascade and `num_usuarios_anterior` takes the read of line 314. -/
def vLEDRGBTask (USUARIOS_FULLS : Nat) (rd : Reads) (st : LedState) : LedState :=
  if st.num_usuarios_anterior ≠ rd.r297 then
    { num_usuarios_anterior := rd.r314, led := ledRender USUARIOS_FULLS rd }
  else st

/-- Successive polling iterations of `vLEDRGBTask`. -/
def ledRun (USUARIOS_FULLS : Nat) : List Reads → LedState → LedState
  | [], st => st
  | rd :: rest, st => ledRun USUARIOS_FULLS rest (vLEDRGBTask USUARIOS_FULLS rd st)

/-- The branch of the if-cascade shared by lines 299-311 and 347-355 that is
taken for a count `n`, named by tier in source order. -/
def tierOf (USUARIOS_FULLS n : Nat) : Tier :=
  if n = 0 then Tier.Empty
  else if (n : Int) < (USUARIOS_FULLS : Int) - 1 then Tier.Available
  else if (n : Int) = (USUARIOS_FULLS : Int) - 1 then Tier.LastSlot
  else Tier.Full

/-- The LED shows the colour selected for the last rendered count. -/
def LedOk (cap : Nat) (st : LedState) : Prop :=
  st.led = ledCascade cap st.num_usuarios_anterior

/-! ## Reset path: interrupt and controller -/

/-- The pin number `BOTAO_JOYSTICK`. -/
def BOTAO_JOYSTICK : Nat := 22

/-- The phases of `vTaskReset`: blocked in `xSemaphoreTake(xSemaphoreReset,
portMAX_DELAY)` (line 268), emitting the double beep (lines 270-276), and
restoring the counter and the tokens (lines 279-285). -/
inductive Phase where
  | Idle
  | Draining
  | Restoring
  deriving DecidableEq

/-- The reset path. `pending` is the state of the binary semaphore
`xSemaphoreReset`, created empty by `xSemaphoreCreateBinary()` in `main`;
`serviced` counts the successful takes of `vTaskReset`, one per reset run. -/
structure ResetCtl where
  phase : Phase
  pending : Bool
  serviced : Nat
  deriving DecidableEq

/-- The reset path when the scheduler starts. -/
def resetInit : ResetCtl :=
  { phase := Phase.Idle, pending := false, serviced := 0 }

/-- Modelled from the spec: `xSemaphoreGiveFromISR` on the binary semaphore,
whose code is not among the sources: "at-most-one-pending semantics ...
excess triggers while one is pending are coalesced, not queued". -/
def xSemaphoreGiveFromISR (_pending : Bool) : Bool := true

/-- Modelled from the spec: `xSemaphoreTake` on the binary semaphore, whose code
is not among the sources; the request is "consumed exactly once". Returns
whether the take succeeded and the new state of the semaphore. -/
def xSemaphoreTakeBinary (pending : Bool) : Bool × Bool := (pending, false)

/-- The interrupt handler `reset_button_callback(gpio, events)` (lines 65-75). -/
def reset_button_callback (gpio : Nat) (c : ResetCtl) : ResetCtl :=
  if gpio = BOTAO_JOYSTICK then { c with pending := xSemaphoreGiveFromISR c.pending }
  else c

/-- One move of `vTaskReset`: from Idle it takes the semaphore if it is pending
and otherwise stays blocked; from Draining it goes on to Restoring; from
Restoring it loops back to the take. -/
def resetTaskStep (c : ResetCtl) : ResetCtl :=
  match c.phase with
  | Phase.Idle =>
    let r := xSemaphoreTakeBinary c.pending
    if r.1 = true then { phase := Phase.Draining, pending := r.2, serviced := c.serviced + 1 }
    else c
  | Phase.Draining => { c with phase := Phase.Restoring }
  | Phase.Restoring => { c with phase := Phase.Idle }

/-- What happens next on the reset path: an interrupt on a pin, or a move of
the reset task. -/
inductive ResetEv where
  | irq (gpio : Nat)
  | task
  deriving DecidableEq

/-- Run one event. -/
def ResetEv.run : ResetEv → ResetCtl → ResetCtl
  | .irq gpio => reset_button_callback gpio
  | .task => resetTaskStep

/-- Run a sequence of events, first element first. -/
def runReset : List ResetEv → ResetCtl → ResetCtl
  | [], c => c
  | e :: rest, c => runReset rest (e.run c)

/-- Number of moves of the reset task in a sequence of events. -/
def taskMoves : List ResetEv → Nat
  | [] => 0
  | ResetEv.task :: rest => taskMoves rest + 1
  | ResetEv.irq _ :: rest => taskMoves rest

/-- Number of task moves that bring the controller from a phase back to Idle. -/
def movesToIdle : Phase → Nat
  | Phase.Idle => 0
  | Phase.Draining => 2
  | Phase.Restoring => 1

/-! ## Exit press interleaved with a reset, statement by statement -/

/-- Next action of the exit press in `vTaskSaida`: the test
`g_num_usuarios > 0` (line 245), the give (line 247), the load and the store of
`g_num_usuarios--` (line 250), or finished. -/
inductive ExitPc where
  | test
  | give
  | load
  | store
  | done
  deriving DecidableEq

/-- Next statement of the restoring part of `vTaskReset`: the read of the prior
count (line 279), the write of zero (line 280), the loop of gives (lines
283-285), or finished. -/
inductive ResetPc where
  | read
  | zero
  | loop
  | done
  deriving DecidableEq

/-- Both tasks in flight: the shared state, the two program counters, the value
loaded by `g_num_usuarios--` in `vTaskSaida`, and the locals
`usuarios_anteriores` and `i` of `vTaskReset`. -/
structure Conf where
  sys : Sys
  epc : ExitPc
  rpc : ResetPc
  loaded : Nat
  usuarios_anteriores : Nat
  i : Nat
  deriving DecidableEq

/-- Both tasks about to start on the shared state `s`. -/
def Conf.start (s : Sys) : Conf :=
  { sys := s, epc := ExitPc.test, rpc := ResetPc.read, loaded := 0,
    usuarios_anteriores := 0, i := 0 }

/-- One action of the exit press. The decrement of the volatile `uint8_t` is a
load followed by a store of the loaded value minus one, modulo 256. -/
def exitStmt (c : Conf) : Conf :=
  match c.epc with
  | ExitPc.test =>
    if 0 < c.sys.g_num_usuarios then { c with epc := ExitPc.give }
    else { c with epc := ExitPc.done }
  | ExitPc.give =>
    { c with sys := { c.sys with xSemaphoreContagem := (xSemaphoreGive c.sys.xSemaphoreContagem).2 }
             epc := ExitPc.load }
  | ExitPc.load =>
    { c with loaded := c.sys.g_num_usuarios, epc := ExitPc.store }
  | ExitPc.store =>
    { c with sys := { c.sys with g_num_usuarios := (c.loaded + 255) % 256 }
             epc := ExitPc.done }
  | ExitPc.done => c

/-- One statement of the restoring part of the reset; in the loop, one test of
`i < usuarios_anteriores` together with the give and `i++` it guards. -/
def resetStmt (c : Conf) : Conf :=
  match c.rpc with
  | ResetPc.read =>
    { c with usuarios_anteriores := c.sys.g_num_usuarios, rpc := ResetPc.zero }
  | ResetPc.zero =>
    { c with sys := { c.sys with g_num_usuarios := 0 }, i := 0, rpc := ResetPc.loop }
  | ResetPc.loop =>
    if c.i < c.usuarios_anteriores then
      { c with sys := { c.sys with
                        xSemaphoreContagem := (xSemaphoreGive c.sys.xSemaphoreContagem).2 }
               i := c.i + 1 }
    else { c with rpc := ResetPc.done }
  | ResetPc.done => c

/-- The task that executes the next statement. -/
inductive Tid where
  | saida
  | reset
  deriving DecidableEq

/-- Execute the next statement of the chosen task. -/
def Tid.stmt : Tid → Conf → Conf
  | .saida => exitStmt
  | .reset => resetStmt

/-- Run a schedule, first element first. -/
def runSched : List Tid → Conf → Conf
  | [], c => c
  | t :: rest, c => runSched rest (t.stmt c)

/-! ## Helper lemmas -/

theorem resetGives_count (n : Nat) (sem : CountingSemaphore)
    (h : sem.count + n ≤ sem.maxCount) :
    (resetGives n sem).1 = { sem with count := sem.count + n } ∧
      (resetGives n sem).2 = List.replicate n true := by
  induction n generalizing sem with
  | zero => simp [resetGives]
  | succ n ih =>
    have hlt : sem.count < sem.maxCount := by omega
    have hg : xSemaphoreGive sem = (true, { sem with count := sem.count + 1 }) := by
      simp [xSemaphoreGive, hlt]
    have := ih { sem with count := sem.count + 1 } (by simp; omega)
    simp only [resetGives, hg]
    refine ⟨?_, ?_⟩
    · rw [this.1]; simp; omega
    · rw [this.2]; simp [List.replicate_succ]

theorem mainInit_invMax (cap : Nat) : InvMax cap (mainInit cap) := by
  simp [InvMax, Inv, mainInit, configurarBuzzer, xSemaphoreCreateCounting]

theorem vTaskEntrada_invMax (cap : Nat) (hc : cap ≤ 255) (s : Sys) (h : InvMax cap s) :
    InvMax cap (vTaskEntrada s) := by
  obtain ⟨⟨h1, h2⟩, h3⟩ := h
  unfold vTaskEntrada xSemaphoreTake
  by_cases hpos : 0 < s.xSemaphoreContagem.count
  · simp only [hpos, if_true]
    refine ⟨⟨?_, ?_⟩, ?_⟩
    · simp only; omega
    · simp only; omega
    · simpa using h3
  · simp only [hpos, if_false]
    refine ⟨⟨?_, ?_⟩, ?_⟩ <;> simp [configurarBuzzer] <;> omega

theorem vTaskSaida_invMax (cap : Nat) (hc : cap ≤ 255) (s : Sys) (h : InvMax cap s) :
    InvMax cap (vTaskSaida s) := by
  obtain ⟨⟨h1, h2⟩, h3⟩ := h
  unfold vTaskSaida xSemaphoreGive
  by_cases hpos : 0 < s.g_num_usuarios
  · have hlt : s.xSemaphoreContagem.count < s.xSemaphoreContagem.maxCount := by omega
    simp only [hpos, hlt, if_true]
    refine ⟨⟨?_, ?_⟩, ?_⟩
    · simp only; omega
    · simp only; omega
    · simpa using h3
  · simp only [hpos, if_false]
    exact ⟨⟨h1, h2⟩, h3⟩

theorem resetRestore_invMax (cap : Nat) (s : Sys) (h : InvMax cap s) :
    InvMax cap (resetRestore s) := by
  obtain ⟨⟨h1, h2⟩, h3⟩ := h
  have hb : s.xSemaphoreContagem.count + s.g_num_usuarios ≤ s.xSemaphoreContagem.maxCount := by
    omega
  have hg := (resetGives_count s.g_num_usuarios s.xSemaphoreContagem hb).1
  unfold resetRestore
  simp only [hg]
  refine ⟨⟨?_, ?_⟩, ?_⟩
  · simp
  · simp only; omega
  · simpa using h3

theorem vTaskReset_invMax (cap : Nat) (s : Sys) (h : InvMax cap s) :
    InvMax cap (vTaskReset s) := by
  unfold vTaskReset
  apply resetRestore_invMax
  obtain ⟨⟨h1, h2⟩, h3⟩ := h
  exact ⟨⟨by simpa [resetBeep, configurarBuzzer] using h1,
    by simpa [resetBeep, configurarBuzzer] using h2⟩,
    by simpa [resetBeep, configurarBuzzer] using h3⟩

theorem runSteps_invMax (cap : Nat) (hc : cap ≤ 255) (steps : List Step) (s : Sys)
    (h : InvMax cap s) : InvMax cap (runSteps steps s) := by
  induction steps generalizing s with
  | nil => exact h
  | cons st rest ih =>
    apply ih
    cases st
    · exact vTaskEntrada_invMax cap hc s h
    · exact vTaskSaida_invMax cap hc s h
    · exact vTaskReset_invMax cap s h

theorem runSteps_append (xs ys : List Step) (s : Sys) :
    runSteps (xs ++ ys) s = runSteps ys (runSteps xs s) := by
  induction xs generalizing s with
  | nil => rfl
  | cons x xs ih => simp [runSteps, ih]

theorem entradas_run (cap : Nat) (hc : cap ≤ 255) (i k : Nat) (log : List Nat)
    (h : k + i ≤ cap) :
    runSteps (List.replicate i Step.entrada)
        { g_num_usuarios := k, xSemaphoreContagem := { count := cap - k, maxCount := cap },
          buzzer := log } =
      { g_num_usuarios := k + i
        xSemaphoreContagem := { count := cap - (k + i), maxCount := cap }
        buzzer := log } := by
  induction i generalizing k with
  | zero => simp [runSteps]
  | succ i ih =>
    have hpos : 0 < cap - k := by omega
    have hmod : (k + 1) % 256 = k + 1 := by omega
    have hsub : cap - k - 1 = cap - (k + 1) := by omega
    simp only [List.replicate_succ, runSteps, Step.run, vTaskEntrada, xSemaphoreTake, hpos,
      if_true, hmod, hsub]
    rw [ih (k + 1) (by omega)]
    have : k + 1 + i = k + (i + 1) := by omega
    rw [this]

theorem tierLabel_inj (a b : Tier) : tierLabel a = tierLabel b ↔ a = b := by
  cases a <;> cases b <;> decide

theorem tierColour_inj (a b : Tier) : tierColour a = tierColour b ↔ a = b := by
  cases a <;> cases b <;> decide

theorem displayStatus_tier (cap n : Nat) :
    displayStatus cap n = tierLabel (tierOf cap n) := by
  unfold displayStatus tierOf
  split_ifs <;> rfl

theorem ledCascade_tier (cap n : Nat) :
    ledCascade cap n = tierColour (tierOf cap n) := by
  unfold ledCascade tierOf
  split_ifs <;> rfl

theorem ledRender_uniform (cap n : Nat) :
    ledRender cap (Reads.uniform n) = ledCascade cap n := rfl

theorem vLEDRGBTask_ok (cap n : Nat) (st : LedState) (h : LedOk cap st) :
    (vLEDRGBTask cap (Reads.uniform n) st).num_usuarios_anterior = n ∧
      (vLEDRGBTask cap (Reads.uniform n) st).led = ledCascade cap n := by
  unfold vLEDRGBTask
  by_cases hne : st.num_usuarios_anterior = n
  · have hn : ¬ (st.num_usuarios_anterior ≠ (Reads.uniform n).r297) := fun hh => hh hne
    rw [if_neg hn]
    exact ⟨hne, by rw [← hne]; exact h⟩
  · have hn : st.num_usuarios_anterior ≠ (Reads.uniform n).r297 := hne
    rw [if_pos hn]
    exact ⟨rfl, rfl⟩

theorem ledRun_ok (cap : Nat) (ns : List Nat) (st : LedState) (h : LedOk cap st) :
    LedOk cap (ledRun cap (ns.map Reads.uniform) st) := by
  induction ns generalizing st with
  | nil => exact h
  | cons n rest ih =>
    apply ih
    have := vLEDRGBTask_ok cap n st h
    unfold LedOk
    rw [this.2, this.1]

theorem ledRun_append (cap : Nat) (xs ys : List Reads) (st : LedState) :
    ledRun cap (xs ++ ys) st = ledRun cap ys (ledRun cap xs st) := by
  induction xs generalizing st with
  | nil => rfl
  | cons x xs ih => simp [ledRun, ih]

theorem ledRun_uniform (cap : Nat) (earlier : List Nat) (n : Nat) :
    (ledRun cap ((earlier ++ [n]).map Reads.uniform) ledInit).led = ledCascade cap n := by
  have hinit : LedOk cap ledInit := by
    simp [LedOk, ledInit, ledCascade]
  have hpre := ledRun_ok cap earlier ledInit hinit
  rw [List.map_append, ledRun_append]
  simp only [List.map, ledRun]
  exact (vLEDRGBTask_ok cap n _ hpre).2

theorem runReset_to_idle (evs : List ResetEv) (c : ResetCtl)
    (h : taskMoves evs = movesToIdle c.phase) :
    (runReset evs c).phase = Phase.Idle ∧
      (runReset evs c).pending = (c.pending || decide (ResetEv.irq BOTAO_JOYSTICK ∈ evs)) ∧
      (runReset evs c).serviced = c.serviced := by
  induction evs generalizing c with
  | nil =>
    obtain ⟨ph, pe, sv⟩ := c
    cases ph <;> simp_all [taskMoves, movesToIdle, runReset]
  | cons e rest ih =>
    obtain ⟨ph, pe, sv⟩ := c
    cases e with
    | irq gpio =>
      have h1 : taskMoves rest = movesToIdle (reset_button_callback gpio ⟨ph, pe, sv⟩).phase := by
        unfold reset_button_callback
        split_ifs <;> simpa [taskMoves] using h
      have := ih _ h1
      simp only [runReset, ResetEv.run]
      refine ⟨this.1, ?_, ?_⟩
      · rw [this.2.1]
        unfold reset_button_callback xSemaphoreGiveFromISR
        by_cases hg : gpio = BOTAO_JOYSTICK
        · simp [hg]
        · have hne : ¬ (BOTAO_JOYSTICK = gpio) := fun hh => hg hh.symm
          simp [hg, hne]
      · rw [this.2.2]
        unfold reset_button_callback
        split_ifs <;> rfl
    | task =>
      cases ph with
      | Idle => simp [taskMoves, movesToIdle] at h
      | Draining =>
        have h1 : taskMoves rest = movesToIdle (resetTaskStep ⟨Phase.Draining, pe, sv⟩).phase := by
          simp [taskMoves, movesToIdle] at h
          simp [resetTaskStep, movesToIdle, h]
        have := ih _ h1
        simp only [runReset, ResetEv.run]
        refine ⟨this.1, ?_, ?_⟩
        · rw [this.2.1]; simp [resetTaskStep]
        · rw [this.2.2]; simp [resetTaskStep]
      | Restoring =>
        have h1 : taskMoves rest = movesToIdle (resetTaskStep ⟨Phase.Restoring, pe, sv⟩).phase := by
          simp [taskMoves, movesToIdle] at h
          simp [resetTaskStep, movesToIdle, h]
        have := ih _ h1
        simp only [runReset, ResetEv.run]
        refine ⟨this.1, ?_, ?_⟩
        · rw [this.2.1]; simp [resetTaskStep]
        · rw [this.2.2]; simp [resetTaskStep]

theorem tierOf_iff (cap n : Nat) (h2 : 2 ≤ cap) :
    (tierOf cap n = Tier.Empty ↔ n = 0) ∧
      (tierOf cap n = Tier.Available ↔ 0 < n ∧ (n : Int) < (cap : Int) - 1) ∧
      (tierOf cap n = Tier.LastSlot ↔ (n : Int) = (cap : Int) - 1) ∧
      (tierOf cap n = Tier.Full ↔ cap ≤ n) := by
  unfold tierOf
  by_cases h0 : n = 0
  · rw [if_pos h0]
    exact ⟨⟨fun _ => h0, fun _ => rfl⟩,
      ⟨(fun h => by cases h), fun h => by omega⟩,
      ⟨(fun h => by cases h), fun h => by omega⟩,
      ⟨(fun h => by cases h), fun h => by omega⟩⟩
  · rw [if_neg h0]
    by_cases h1 : (n : Int) < (cap : Int) - 1
    · rw [if_pos h1]
      exact ⟨⟨(fun h => by cases h), fun h => absurd h h0⟩,
        ⟨(fun _ => ⟨by omega, h1⟩), fun _ => rfl⟩,
        ⟨(fun h => by cases h), fun h => by omega⟩,
        ⟨(fun h => by cases h), fun h => by omega⟩⟩
    · rw [if_neg h1]
      by_cases h3 : (n : Int) = (cap : Int) - 1
      · rw [if_pos h3]
        exact ⟨⟨(fun h => by cases h), fun h => absurd h h0⟩,
          ⟨(fun h => by cases h), fun h => absurd h.2 h1⟩,
          ⟨fun _ => h3, fun _ => rfl⟩,
          ⟨(fun h => by cases h), fun h => by omega⟩⟩
      · rw [if_neg h3]
        exact ⟨⟨(fun h => by cases h), fun h => absurd h h0⟩,
          ⟨(fun h => by cases h), fun h => absurd h.2 h1⟩,
          ⟨(fun h => by cases h), fun h => absurd h h3⟩,
          ⟨(fun _ => by omega), fun _ => rfl⟩⟩

theorem runSched_cons (t : Tid) (rest : List Tid) (c : Conf) :
    runSched (t :: rest) c = runSched rest (t.stmt c) := rfl

theorem exitStmt_all (c : Conf) (h : c.epc = ExitPc.test) :
    (exitStmt (exitStmt (exitStmt (exitStmt c)))).sys = vTaskSaida c.sys ∧
      (exitStmt (exitStmt (exitStmt (exitStmt c)))).epc = ExitPc.done := by
  obtain ⟨s, epc, rpc, ld, p, i⟩ := c
  simp only at h
  subst h
  by_cases hpos : 0 < s.g_num_usuarios
  · simp [exitStmt, vTaskSaida, hpos]
  · simp [exitStmt, vTaskSaida, hpos]

theorem resetStmt_loop (n : Nat) (c : Conf) (h : c.rpc = ResetPc.loop)
    (hn : c.i + n = c.usuarios_anteriores) :
    (runSched (List.replicate (n + 1) Tid.reset) c).sys =
        { c.sys with xSemaphoreContagem := (resetGives n c.sys.xSemaphoreContagem).1 } ∧
      (runSched (List.replicate (n + 1) Tid.reset) c).rpc = ResetPc.done := by
  induction n generalizing c with
  | zero =>
    obtain ⟨s, epc, rpc, ld, p, i⟩ := c
    simp only at h hn
    subst h
    have : ¬ (i < p) := by omega
    simp [runSched, Tid.stmt, resetStmt, resetGives, this]
  | succ n ih =>
    obtain ⟨s, epc, rpc, ld, p, i⟩ := c
    simp only at h hn
    subst h
    have hlt : i < p := by omega
    have hstep : Tid.reset.stmt
        { sys := s, epc := epc, rpc := ResetPc.loop, loaded := ld,
          usuarios_anteriores := p, i := i } =
        { sys := { s with xSemaphoreContagem := (xSemaphoreGive s.xSemaphoreContagem).2 }
          epc := epc, rpc := ResetPc.loop, loaded := ld, usuarios_anteriores := p,
          i := i + 1 } := by
      simp [Tid.stmt, resetStmt, hlt]
    rw [List.replicate_succ, runSched_cons, hstep]
    have := ih { sys := { s with xSemaphoreContagem := (xSemaphoreGive s.xSemaphoreContagem).2 }
                 epc := epc, rpc := ResetPc.loop, loaded := ld, usuarios_anteriores := p,
                 i := i + 1 }
      rfl (by simp only; omega)
    refine ⟨?_, this.2⟩
    rw [this.1]
    simp [resetGives]

theorem resetStmt_all (s : Sys) :
    (runSched (List.replicate (s.g_num_usuarios + 3) Tid.reset) (Conf.start s)).sys
        = resetRestore s ∧
      (runSched (List.replicate (s.g_num_usuarios + 3) Tid.reset) (Conf.start s)).rpc
        = ResetPc.done := by
  have h := resetStmt_loop s.g_num_usuarios
    { sys := { s with g_num_usuarios := 0 }, epc := ExitPc.test, rpc := ResetPc.loop,
      loaded := 0, usuarios_anteriores := s.g_num_usuarios, i := 0 } rfl (by simp)
  have hrun : runSched (List.replicate (s.g_num_usuarios + 3) Tid.reset) (Conf.start s) =
      runSched (List.replicate (s.g_num_usuarios + 1) Tid.reset)
        { sys := { s with g_num_usuarios := 0 }, epc := ExitPc.test, rpc := ResetPc.loop,
          loaded := 0, usuarios_anteriores := s.g_num_usuarios, i := 0 } := by
    rw [show s.g_num_usuarios + 3 = (s.g_num_usuarios + 1) + 1 + 1 from rfl,
      List.replicate_succ, List.replicate_succ]
    simp [runSched, Tid.stmt, resetStmt, Conf.start]
  rw [hrun]
  exact ⟨by rw [h.1]; simp [resetRestore], h.2⟩

/-! ## Claims -/

/-- C1: for every capacity in 1..255 and every state reached from the initial
state by a finite sequence of complete entry presses, exit presses and resets,
`0 <= g_num_usuarios <= cap` and the count of `xSemaphoreContagem` equals
`cap - g_num_usuarios`. -/
theorem C1_invariant_reachable (cap : Nat) (_h1 : 1 ≤ cap) (h255 : cap ≤ 255)
    (steps : List Step) :
    0 ≤ (runSteps steps (mainInit cap)).g_num_usuarios ∧
      (runSteps steps (mainInit cap)).g_num_usuarios ≤ cap ∧
      ((runSteps steps (mainInit cap)).xSemaphoreContagem.count : Int)
        = (cap : Int) - ((runSteps steps (mainInit cap)).g_num_usuarios : Int) := by
  have h := (runSteps_invMax cap h255 steps (mainInit cap) (mainInit_invMax cap)).1
  exact ⟨Nat.zero_le _, h.1, h.2⟩

/-- Instance: capacity 9 and the steps entry, entry, exit, reset, entry. -/
theorem C1_invariant_reachable_witness :
    (1 ≤ 9 ∧ 9 ≤ 255) ∧
      (0 ≤ (runSteps [Step.entrada, Step.entrada, Step.saida, Step.reset, Step.entrada]
          (mainInit 9)).g_num_usuarios ∧
        (runSteps [Step.entrada, Step.entrada, Step.saida, Step.reset, Step.entrada]
          (mainInit 9)).g_num_usuarios ≤ 9 ∧
        ((runSteps [Step.entrada, Step.entrada, Step.saida, Step.reset, Step.entrada]
          (mainInit 9)).xSemaphoreContagem.count : Int)
          = ((9 : Nat) : Int) - ((runSteps [Step.entrada, Step.entrada, Step.saida, Step.reset,
              Step.entrada] (mainInit 9)).g_num_usuarios : Int)) :=
  ⟨by decide, C1_invariant_reachable 9 (by decide) (by decide)
    [Step.entrada, Step.entrada, Step.saida, Step.reset, Step.entrada]⟩

/-- C2: from a state with `g_num_usuarios = k <= cap` and `cap - k` tokens, the
reset of `vTaskReset` ends with `g_num_usuarios = 0` and `cap` tokens, and each
of the `k` gives it issues is accepted by the semaphore. -/
theorem C2_reset_restores (cap k : Nat) (log : List Nat) (hk : k ≤ cap) :
    (vTaskReset { g_num_usuarios := k
                  xSemaphoreContagem := { count := cap - k, maxCount := cap }
                  buzzer := log }).g_num_usuarios = 0 ∧
      (vTaskReset { g_num_usuarios := k
                    xSemaphoreContagem := { count := cap - k, maxCount := cap }
                    buzzer := log }).xSemaphoreContagem.count = cap ∧
      (resetGives k { count := cap - k, maxCount := cap }).2 = List.replicate k true := by
  have hg := resetGives_count k { count := cap - k, maxCount := cap } (by simp; omega)
  refine ⟨?_, ?_, hg.2⟩
  · simp [vTaskReset, resetRestore]
  · simp only [vTaskReset, resetRestore, resetBeep, configurarBuzzer, hg.1]
    omega

/-- Instance: capacity 9 with 4 users inside. -/
theorem C2_reset_restores_witness :
    (4 ≤ 9) ∧
      ((vTaskReset { g_num_usuarios := 4
                     xSemaphoreContagem := { count := 9 - 4, maxCount := 9 }
                     buzzer := [0] }).g_num_usuarios = 0 ∧
        (vTaskReset { g_num_usuarios := 4
                      xSemaphoreContagem := { count := 9 - 4, maxCount := 9 }
                      buzzer := [0] }).xSemaphoreContagem.count = 9 ∧
        (resetGives 4 { count := 9 - 4, maxCount := 9 }).2 = List.replicate 4 true) :=
  ⟨by decide, C2_reset_restores 9 4 [0] (by decide)⟩

/-- C3: for every capacity in 1..255, each of the first `cap` entry presses from
the initial state finds a token (`xSemaphoreTake` returns `pdTRUE`) and
increments `g_num_usuarios`; the next press is denied and leaves
`g_num_usuarios = cap` with no token. -/
theorem C3_saturation (cap : Nat) (_h1 : 1 ≤ cap) (h255 : cap ≤ 255) :
    (∀ i, i < cap →
      (xSemaphoreTake
          (runSteps (List.replicate i Step.entrada) (mainInit cap)).xSemaphoreContagem).1 = true ∧
        (runSteps (List.replicate (i + 1) Step.entrada) (mainInit cap)).g_num_usuarios = i + 1) ∧
      (xSemaphoreTake
          (runSteps (List.replicate cap Step.entrada) (mainInit cap)).xSemaphoreContagem).1
        = false ∧
      (runSteps (List.replicate (cap + 1) Step.entrada) (mainInit cap)).g_num_usuarios = cap ∧
      (runSteps (List.replicate (cap + 1) Step.entrada) (mainInit cap)).xSemaphoreContagem.count
        = 0 := by
  have hinit : mainInit cap =
      { g_num_usuarios := 0, xSemaphoreContagem := { count := cap - 0, maxCount := cap },
        buzzer := [0] } := by
    simp [mainInit, configurarBuzzer, xSemaphoreCreateCounting]
  have hrun : ∀ i, i ≤ cap → runSteps (List.replicate i Step.entrada) (mainInit cap) =
      { g_num_usuarios := i, xSemaphoreContagem := { count := cap - i, maxCount := cap },
        buzzer := [0] } := by
    intro i hi
    rw [hinit, entradas_run cap h255 i 0 [0] (by omega)]
    simp
  refine ⟨?_, ?_, ?_, ?_⟩
  · intro i hi
    rw [hrun i (by omega), hrun (i + 1) (by omega)]
    have : 0 < cap - i := by omega
    simp [xSemaphoreTake, this]
  · rw [hrun cap (le_refl _)]
    simp [xSemaphoreTake]
  · rw [List.replicate_succ', runSteps_append, hrun cap (le_refl _)]
    simp [runSteps, Step.run, vTaskEntrada, xSemaphoreTake, configurarBuzzer]
  · rw [List.replicate_succ', runSteps_append, hrun cap (le_refl _)]
    simp [runSteps, Step.run, vTaskEntrada, xSemaphoreTake, configurarBuzzer]

/-- Instance: capacity 3. -/
theorem C3_saturation_witness :
    (1 ≤ 3 ∧ 3 ≤ 255) ∧
    ((∀ i, i < 3 →
      (xSemaphoreTake
          (runSteps (List.replicate i Step.entrada) (mainInit 3)).xSemaphoreContagem).1 = true ∧
        (runSteps (List.replicate (i + 1) Step.entrada) (mainInit 3)).g_num_usuarios = i + 1) ∧
      (xSemaphoreTake
          (runSteps (List.replicate 3 Step.entrada) (mainInit 3)).xSemaphoreContagem).1
        = false ∧
      (runSteps (List.replicate (3 + 1) Step.entrada) (mainInit 3)).g_num_usuarios = 3 ∧
      (runSteps (List.replicate (3 + 1) Step.entrada) (mainInit 3)).xSemaphoreContagem.count
        = 0) :=
  ⟨by decide, C3_saturation 3 (by decide) (by decide)⟩

/-- C4: an exit press handled by `vTaskSaida` when `g_num_usuarios` is 0 leaves
the whole state unchanged: no wrap to 255 and no give on the semaphore. -/
theorem C4_exit_at_zero (s : Sys) (h : s.g_num_usuarios = 0) : vTaskSaida s = s := by
  simp [vTaskSaida, h]

/-- Instance: an exit press in the initial state for capacity 9. -/
theorem C4_exit_at_zero_witness :
    (mainInit 9).g_num_usuarios = 0 ∧ vTaskSaida (mainInit 9) = mainInit 9 :=
  ⟨by decide, C4_exit_at_zero (mainInit 9) (by decide)⟩

/-- C7: with capacity 9, nine entries succeed and bring the count to 9; the
tenth is denied, keeps the count at 9 and writes the buzzer levels 50 then 0;
the reset brings the count to 0 and the tokens to 9; the next entry succeeds
and leaves count 1 and 8 tokens. -/
theorem C7_scenario :
    (∀ i, i < 9 →
      (xSemaphoreTake
          (runSteps (List.replicate i Step.entrada) (mainInit 9)).xSemaphoreContagem).1 = true ∧
        (runSteps (List.replicate (i + 1) Step.entrada) (mainInit 9)).g_num_usuarios = i + 1) ∧
      (runSteps (List.replicate 9 Step.entrada) (mainInit 9)).g_num_usuarios = 9 ∧
      (xSemaphoreTake
          (runSteps (List.replicate 9 Step.entrada) (mainInit 9)).xSemaphoreContagem).1
        = false ∧
      (runSteps (List.replicate 10 Step.entrada) (mainInit 9)).g_num_usuarios = 9 ∧
      (runSteps (List.replicate 10 Step.entrada) (mainInit 9)).buzzer
        = (runSteps (List.replicate 9 Step.entrada) (mainInit 9)).buzzer ++ [50, 0] ∧
      (runSteps (List.replicate 10 Step.entrada ++ [Step.reset]) (mainInit 9)).g_num_usuarios
        = 0 ∧
      (runSteps (List.replicate 10 Step.entrada ++ [Step.reset])
          (mainInit 9)).xSemaphoreContagem.count = 9 ∧
      (xSemaphoreTake
          (runSteps (List.replicate 10 Step.entrada ++ [Step.reset])
            (mainInit 9)).xSemaphoreContagem).1 = true ∧
      (runSteps (List.replicate 10 Step.entrada ++ [Step.reset, Step.entrada])
          (mainInit 9)).g_num_usuarios = 1 ∧
      (runSteps (List.replicate 10 Step.entrada ++ [Step.reset, Step.entrada])
          (mainInit 9)).xSemaphoreContagem.count = 8 := by
  decide

/-- C5: for every capacity of at least 2 the label chosen by the display task
and the colour chosen by the LED task are those of tier Empty iff the count is
0, Available iff `0 < count < cap - 1`, LastSlot iff `count = cap - 1`, Full iff
`count >= cap`; and exactly one tier is chosen, the same by both tasks. -/
theorem C5_tier_mapping (cap occ : Nat) (h2 : 2 ≤ cap) :
    (displayStatus cap occ = tierLabel Tier.Empty ↔ occ = 0) ∧
      (displayStatus cap occ = tierLabel Tier.Available ↔
        0 < occ ∧ (occ : Int) < (cap : Int) - 1) ∧
      (displayStatus cap occ = tierLabel Tier.LastSlot ↔ (occ : Int) = (cap : Int) - 1) ∧
      (displayStatus cap occ = tierLabel Tier.Full ↔ cap ≤ occ) ∧
      (ledCascade cap occ = tierColour Tier.Empty ↔ occ = 0) ∧
      (ledCascade cap occ = tierColour Tier.Available ↔
        0 < occ ∧ (occ : Int) < (cap : Int) - 1) ∧
      (ledCascade cap occ = tierColour Tier.LastSlot ↔ (occ : Int) = (cap : Int) - 1) ∧
      (ledCascade cap occ = tierColour Tier.Full ↔ cap ≤ occ) ∧
      (∃! t : Tier, displayStatus cap occ = tierLabel t ∧ ledCascade cap occ = tierColour t) := by
  have hl := displayStatus_tier cap occ
  have hc := ledCascade_tier cap occ
  obtain ⟨hE, hA, hL, hF⟩ := tierOf_iff cap occ h2
  rw [hl, hc]
  refine ⟨?_, ?_, ?_, ?_, ?_, ?_, ?_, ?_, ?_⟩
  · rw [tierLabel_inj]; exact hE
  · rw [tierLabel_inj]; exact hA
  · rw [tierLabel_inj]; exact hL
  · rw [tierLabel_inj]; exact hF
  · rw [tierColour_inj]; exact hE
  · rw [tierColour_inj]; exact hA
  · rw [tierColour_inj]; exact hL
  · rw [tierColour_inj]; exact hF
  · refine ⟨tierOf cap occ, ⟨rfl, rfl⟩, ?_⟩
    intro t ht
    exact ((tierLabel_inj _ _).1 ht.1).symm

/-- Instance: capacity 9 and a count of 8. -/
theorem C5_tier_mapping_witness :
    2 ≤ 9 ∧
    ((displayStatus 9 8 = tierLabel Tier.Empty ↔ 8 = 0) ∧
      (displayStatus 9 8 = tierLabel Tier.Available ↔
        0 < 8 ∧ ((8 : Nat) : Int) < ((9 : Nat) : Int) - 1) ∧
      (displayStatus 9 8 = tierLabel Tier.LastSlot ↔ ((8 : Nat) : Int) = ((9 : Nat) : Int) - 1) ∧
      (displayStatus 9 8 = tierLabel Tier.Full ↔ 9 ≤ 8) ∧
      (ledCascade 9 8 = tierColour Tier.Empty ↔ 8 = 0) ∧
      (ledCascade 9 8 = tierColour Tier.Available ↔
        0 < 8 ∧ ((8 : Nat) : Int) < ((9 : Nat) : Int) - 1) ∧
      (ledCascade 9 8 = tierColour Tier.LastSlot ↔ ((8 : Nat) : Int) = ((9 : Nat) : Int) - 1) ∧
      (ledCascade 9 8 = tierColour Tier.Full ↔ 9 ≤ 8) ∧
      (∃! t : Tier, displayStatus 9 8 = tierLabel t ∧ ledCascade 9 8 = tierColour t)) :=
  ⟨by decide, C5_tier_mapping 9 8 (by decide)⟩

/-- C6 (as stated, refuted): with capacity 9 the code does not choose LastSlot
for a count of 7 nor Full for a count of 8; it chooses Available (green,
"Status: Livre") for 7 and LastSlot (yellow, "Status: Ultima") for 8. -/
theorem C6_counterexample :
    ledCascade 9 7 = tierColour Tier.Available ∧
      displayStatus 9 7 = tierLabel Tier.Available ∧
      ledCascade 9 7 ≠ tierColour Tier.LastSlot ∧
      displayStatus 9 7 ≠ tierLabel Tier.LastSlot ∧
      ledCascade 9 8 = tierColour Tier.LastSlot ∧
      displayStatus 9 8 = tierLabel Tier.LastSlot ∧
      ledCascade 9 8 ≠ tierColour Tier.Full ∧
      displayStatus 9 8 ≠ tierLabel Tier.Full := by
  decide

/-- C6 (amended): with capacity 9 both tasks choose Empty for a count of 0,
Available for every count in 1..7, LastSlot for 8 and Full for 9. -/
theorem C6_tiers_at_capacity_9 :
    (ledCascade 9 0 = tierColour Tier.Empty ∧ displayStatus 9 0 = tierLabel Tier.Empty) ∧
      (List.map (ledCascade 9) [1, 2, 3, 4, 5, 6, 7]
          = List.replicate 7 (tierColour Tier.Available) ∧
        List.map (displayStatus 9) [1, 2, 3, 4, 5, 6, 7]
          = List.replicate 7 (tierLabel Tier.Available)) ∧
      (ledCascade 9 8 = tierColour Tier.LastSlot ∧
        displayStatus 9 8 = tierLabel Tier.LastSlot) ∧
      (ledCascade 9 9 = tierColour Tier.Full ∧ displayStatus 9 9 = tierLabel Tier.Full) := by
  decide

/-- C10 (the code departs from the claim): with capacity 9, after polls that
saw 1 to 8 users, a poll reads 9 at lines 297-305 and renders red, an exit press
runs before line 314, which reads and stores 8. Every later poll reads 8, finds
it equal to `num_usuarios_anterior` and renders nothing: the LED stays red
while the tier of the observed count 8 is LastSlot, yellow. -/
theorem C10_stale_colour :
    ledRun 9 (List.map Reads.uniform [1, 2, 3, 4, 5, 6, 7, 8]) ledInit
        = { num_usuarios_anterior := 8, led := tierColour Tier.LastSlot } ∧
      ledRun 9 (List.map Reads.uniform [1, 2, 3, 4, 5, 6, 7, 8]
          ++ [{ r297 := 9, r299 := 9, r302 := 9, r305 := 9, r314 := 8 }]) ledInit
        = { num_usuarios_anterior := 8, led := tierColour Tier.Full } ∧
      (ledRun 9 (List.map Reads.uniform [1, 2, 3, 4, 5, 6, 7, 8]
          ++ [{ r297 := 9, r299 := 9, r302 := 9, r305 := 9, r314 := 8 }, Reads.uniform 8])
          ledInit).led = (255, 0, 0) ∧
      (ledRun 9 (List.map Reads.uniform [1, 2, 3, 4, 5, 6, 7, 8]
          ++ [{ r297 := 9, r299 := 9, r302 := 9, r305 := 9, r314 := 8 }, Reads.uniform 8,
              Reads.uniform 8, Reads.uniform 8]) ledInit).led = (255, 0, 0) ∧
      ledCascade 9 8 = (255, 255, 0) ∧
      (ledRun 9 (List.map Reads.uniform [1, 2, 3, 4, 5, 6, 7, 8]
          ++ [{ r297 := 9, r299 := 9, r302 := 9, r305 := 9, r314 := 8 }, Reads.uniform 8])
          ledInit).led ≠ tierColour (tierOf 9 8) := by
  decide

/-- C8 (as stated, refuted): a trigger that arrives while the controller is in
Draining is not dropped. After trigger, take, trigger during Draining and the
two moves back to Idle, the request is pending, and the next move of the task
services a second reset. -/
theorem C8_counterexample :
    (runReset [ResetEv.irq BOTAO_JOYSTICK, ResetEv.task] resetInit).phase = Phase.Draining ∧
      (runReset [ResetEv.irq BOTAO_JOYSTICK, ResetEv.task] resetInit).pending = false ∧
      (runReset [ResetEv.irq BOTAO_JOYSTICK, ResetEv.task, ResetEv.irq BOTAO_JOYSTICK,
          ResetEv.task, ResetEv.task] resetInit).phase = Phase.Idle ∧
      (runReset [ResetEv.irq BOTAO_JOYSTICK, ResetEv.task, ResetEv.irq BOTAO_JOYSTICK,
          ResetEv.task, ResetEv.task] resetInit).pending = true ∧
      (runReset [ResetEv.irq BOTAO_JOYSTICK, ResetEv.task, ResetEv.irq BOTAO_JOYSTICK,
          ResetEv.task, ResetEv.task] resetInit).serviced = 1 ∧
      (runReset [ResetEv.irq BOTAO_JOYSTICK, ResetEv.task, ResetEv.irq BOTAO_JOYSTICK,
          ResetEv.task, ResetEv.task, ResetEv.task] resetInit).phase = Phase.Draining ∧
      (runReset [ResetEv.irq BOTAO_JOYSTICK, ResetEv.task, ResetEv.irq BOTAO_JOYSTICK,
          ResetEv.task, ResetEv.task, ResetEv.task] resetInit).serviced = 2 := by
  decide

/-- C8 (amended): when one or more reset triggers arrive while the controller is
in Draining or Restoring, then at its return to Idle exactly one request is
pending (the triggers are coalesced in the binary semaphore, none is serviced
meanwhile), and the next move of the task services one further reset and
clears the request. -/
theorem C8_trigger_latched (c : ResetCtl) (evs : List ResetEv)
    (_hph : c.phase = Phase.Draining ∨ c.phase = Phase.Restoring)
    (hmoves : taskMoves evs = movesToIdle c.phase)
    (htrig : ResetEv.irq BOTAO_JOYSTICK ∈ evs) :
    (runReset evs c).phase = Phase.Idle ∧
      (runReset evs c).pending = true ∧
      (runReset evs c).serviced = c.serviced ∧
      (resetTaskStep (runReset evs c)).phase = Phase.Draining ∧
      (resetTaskStep (runReset evs c)).pending = false ∧
      (resetTaskStep (runReset evs c)).serviced = c.serviced + 1 := by
  obtain ⟨h1, h2, h3⟩ := runReset_to_idle evs c hmoves
  have hp : (runReset evs c).pending = true := by
    rw [h2]; simp [htrig]
  refine ⟨h1, hp, h3, ?_, ?_, ?_⟩ <;>
    simp [resetTaskStep, h1, hp, h3, xSemaphoreTakeBinary]

/-- Instance: two triggers arrive during Draining of the first reset. -/
theorem C8_trigger_latched_witness :
    ((⟨Phase.Draining, false, 1⟩ : ResetCtl).phase = Phase.Draining ∨
        (⟨Phase.Draining, false, 1⟩ : ResetCtl).phase = Phase.Restoring) ∧
      taskMoves [ResetEv.irq BOTAO_JOYSTICK, ResetEv.task, ResetEv.irq BOTAO_JOYSTICK,
          ResetEv.task] = movesToIdle (⟨Phase.Draining, false, 1⟩ : ResetCtl).phase ∧
      ResetEv.irq BOTAO_JOYSTICK ∈ [ResetEv.irq BOTAO_JOYSTICK, ResetEv.task,
          ResetEv.irq BOTAO_JOYSTICK, ResetEv.task] ∧
      ((runReset [ResetEv.irq BOTAO_JOYSTICK, ResetEv.task, ResetEv.irq BOTAO_JOYSTICK,
          ResetEv.task] ⟨Phase.Draining, false, 1⟩).phase = Phase.Idle ∧
        (runReset [ResetEv.irq BOTAO_JOYSTICK, ResetEv.task, ResetEv.irq BOTAO_JOYSTICK,
          ResetEv.task] ⟨Phase.Draining, false, 1⟩).pending = true ∧
        (runReset [ResetEv.irq BOTAO_JOYSTICK, ResetEv.task, ResetEv.irq BOTAO_JOYSTICK,
          ResetEv.task] ⟨Phase.Draining, false, 1⟩).serviced
          = (⟨Phase.Draining, false, 1⟩ : ResetCtl).serviced ∧
        (resetTaskStep (runReset [ResetEv.irq BOTAO_JOYSTICK, ResetEv.task,
          ResetEv.irq BOTAO_JOYSTICK, ResetEv.task] ⟨Phase.Draining, false, 1⟩)).phase
          = Phase.Draining ∧
        (resetTaskStep (runReset [ResetEv.irq BOTAO_JOYSTICK, ResetEv.task,
          ResetEv.irq BOTAO_JOYSTICK, ResetEv.task] ⟨Phase.Draining, false, 1⟩)).pending
          = false ∧
        (resetTaskStep (runReset [ResetEv.irq BOTAO_JOYSTICK, ResetEv.task,
          ResetEv.irq BOTAO_JOYSTICK, ResetEv.task] ⟨Phase.Draining, false, 1⟩)).serviced
          = (⟨Phase.Draining, false, 1⟩ : ResetCtl).serviced + 1) :=
  ⟨by decide, by decide, by decide,
    C8_trigger_latched ⟨Phase.Draining, false, 1⟩
      [ResetEv.irq BOTAO_JOYSTICK, ResetEv.task, ResetEv.irq BOTAO_JOYSTICK, ResetEv.task]
      (by decide) (by decide) (by decide)⟩

/-- C9 (the code departs from the claim): with capacity 9 and one user inside
(the state after one entry press), the exit press passes its test, the reset
task then runs its restoring part to the end (read 1, write 0, one give, loop
exit), and the exit press resumes: its give is rejected at 9 tokens and its
decrement takes `g_num_usuarios` from 0 to 255. Both tasks have finished and
the invariant is broken. -/
theorem C9_race_wraps_counter :
    runSteps [Step.entrada] (mainInit 9)
        = { g_num_usuarios := 1, xSemaphoreContagem := { count := 8, maxCount := 9 },
            buzzer := [0] } ∧
      Inv 9 (runSteps [Step.entrada] (mainInit 9)) ∧
      (runSched [Tid.saida, Tid.reset, Tid.reset, Tid.reset, Tid.reset,
          Tid.saida, Tid.saida, Tid.saida]
        (Conf.start (runSteps [Step.entrada] (mainInit 9)))).epc = ExitPc.done ∧
      (runSched [Tid.saida, Tid.reset, Tid.reset, Tid.reset, Tid.reset,
          Tid.saida, Tid.saida, Tid.saida]
        (Conf.start (runSteps [Step.entrada] (mainInit 9)))).rpc = ResetPc.done ∧
      (runSched [Tid.saida, Tid.reset, Tid.reset, Tid.reset, Tid.reset,
          Tid.saida, Tid.saida, Tid.saida]
        (Conf.start (runSteps [Step.entrada] (mainInit 9)))).sys.g_num_usuarios = 255 ∧
      (runSched [Tid.saida, Tid.reset, Tid.reset, Tid.reset, Tid.reset,
          Tid.saida, Tid.saida, Tid.saida]
        (Conf.start (runSteps [Step.entrada] (mainInit 9)))).sys.xSemaphoreContagem.count
        = 9 ∧
      ¬ Inv 9 (runSched [Tid.saida, Tid.reset, Tid.reset, Tid.reset, Tid.reset,
          Tid.saida, Tid.saida, Tid.saida]
        (Conf.start (runSteps [Step.entrada] (mainInit 9)))).sys := by
  decide

end TrabalhoSE06
